import Mathlib

/-!
# A shallow embedding of `video_transcriber.py`

This file embeds the orchestration pipeline of the video-transcription
script (`src/video_transcriber.py`) in Lean 4 and proves the specified
properties about it.

External effects are modelled as explicit inputs:

* a subprocess invocation of the probing tool (`ffprobe`) is a
  `ProbeOutcome` — either the raised `CalledProcessError` or the captured
  stdout text;
* a subprocess invocation of the extraction tool (`ffmpeg`) is an
  `ExtractOutcome` — success or the raised `CalledProcessError`;
* the speech model's `transcribe` call is a `ModelOutcome` — either an
  arbitrary raised exception or a list of raw segments, each with a start
  time, an end time and a text.

Times and durations are modelled as rationals (`ℚ`); the two-decimal
fixed-point rendering `f"{x:.2f}"` of a time value is modelled by the
integer number of hundredths it displays (Python formats by rounding the
decimal expansion to the nearest hundredth, ties to even).  Lines printed
to stdout are modelled by the inductive `Msg`, one constructor per
`print` call site (the running file counter `i/len` of the progress line
is not tracked, only which line was printed for which file).  Files in
the per-run temporary directory are modelled as the list of their base
names.
-/

/-! ## Python string primitives used by the script -/

/-- Default whitespace for Python `str.strip()` (the ASCII part: space,
tab, newline, carriage return, vertical tab, form feed). -/
def isPyWs (c : Char) : Bool :=
  c = ' ' || c = '\t' || c = '\n' || c = '\r' || c = '\x0b' || c = '\x0c'

/-- `str.strip()` on a character list: drop whitespace from both ends. -/
def stripList (l : List Char) : List Char :=
  ((l.dropWhile isPyWs).reverse.dropWhile isPyWs).reverse

/-- Python `str.strip()`. -/
def pyStrip (s : String) : String := String.mk (stripList s.toList)

/-- Index of the last `'.'` in a character list, if any. -/
def rfindDot : List Char → Option Nat
  | [] => none
  | c :: cs =>
    match rfindDot cs with
    | some i => some (i + 1)
    | none => if c = '.' then some 0 else none

/-- `pathlib.PurePath.suffix` on a file name: the part of the name from
its last dot, except when that dot is the first or the last character, in
which case the suffix is empty (CPython: `0 < i < len(name) - 1`). -/
def pySuffix (s : String) : String :=
  let l := s.toList
  match rfindDot l with
  | none => ""
  | some i => if 0 < i ∧ i + 1 < l.length then String.mk (l.drop i) else ""

/-- `pathlib.PurePath.name` of a path: the part after the last slash. -/
def pyBaseName (p : String) : String :=
  String.mk ((p.toList.reverse.takeWhile (fun c => c != '/')).reverse)

/-- `pathlib.PurePath.stem` of a file name: the name minus its suffix. -/
def pyStem (name : String) : String :=
  String.mk (name.toList.take (name.toList.length - (pySuffix name).toList.length))

/-- `os.path.join(folder, file)` for a folder path without a trailing
separator, the only shape the script produces. -/
def joinPath (folder file : String) : String := folder ++ "/" ++ file

/-! ## Python `float()` on the probe's stdout

The script calls `float(result.stdout.strip())`.  We model the decimal
literals `float` accepts — optional sign, integer digits, optional
fractional digits, optional exponent — which covers every duration string
the probing tool prints.  (Named specials such as `inf`/`nan` and digit
group underscores are not modelled; on those this parser fails where
Python would succeed, which only widens the already-total failure branch.)
-/

/-- Split a character list at its first `'.'`. -/
def breakDot : List Char → List Char × Option (List Char)
  | [] => ([], none)
  | c :: r =>
    if c = '.' then ([], some r)
    else
      let p := breakDot r
      (c :: p.1, p.2)

/-- Split a character list at its first `'e'` or `'E'`. -/
def breakExp : List Char → List Char × Option (List Char)
  | [] => ([], none)
  | c :: r =>
    if c = 'e' ∨ c = 'E' then ([], some r)
    else
      let p := breakExp r
      (c :: p.1, p.2)

/-- Strip one optional leading sign, returning the sign as `1` or `-1`. -/
def takeSign : List Char → ℤ × List Char
  | '-' :: r => (-1, r)
  | '+' :: r => (1, r)
  | l => (1, l)

def digitsToNat (l : List Char) : Nat :=
  l.foldl (fun a c => a * 10 + (c.toNat - 48)) 0

/-- The value of an unsigned decimal mantissa `digits[.digits]`, or
`none` if malformed. -/
def parseMantissa (l : List Char) : Option ℚ :=
  let p := breakDot l
  match p.2 with
  | none =>
    if p.1 ≠ [] ∧ p.1.all Char.isDigit then some (digitsToNat p.1 : ℚ) else none
  | some fp =>
    if (p.1 ≠ [] ∨ fp ≠ []) ∧ p.1.all Char.isDigit ∧ fp.all Char.isDigit then
      some ((digitsToNat p.1 : ℚ) + (digitsToNat fp : ℚ) / (10 : ℚ) ^ fp.length)
    else none

/-- The value of a signed decimal exponent, or `none` if malformed. -/
def parseExp (l : List Char) : Option ℤ :=
  let p := takeSign l
  if p.2 ≠ [] ∧ p.2.all Char.isDigit then some (p.1 * (digitsToNat p.2 : ℤ)) else none

/-- Python `float(s)` on decimal literals: `some` value on success,
`none` where `float` raises `ValueError`. -/
def pyFloat? (s : String) : Option ℚ :=
  let p := takeSign s.toList
  let q := breakExp p.2
  match parseMantissa q.1 with
  | none => none
  | some m =>
    match q.2 with
    | none => some ((p.1 : ℚ) * m)
    | some el =>
      match parseExp el with
      | none => none
      | some e => some ((p.1 : ℚ) * m * (10 : ℚ) ^ e)

/-! ## Two-decimal fixed-point formatting

`f"{x:.2f}"` renders `x` rounded to the nearest hundredth, ties to even.
`format2` is the integer number of hundredths that the rendered string
denotes; the float value obtained by parsing the rendered string back is
`format2 x / 100`.
-/

/-- Round to the nearest integer, ties to the even neighbour. -/
def roundHalfEven (q : ℚ) : ℤ :=
  if Int.fract q < 1 / 2 then ⌊q⌋
  else if 1 / 2 < Int.fract q then ⌊q⌋ + 1
  else if ⌊q⌋ % 2 = 0 then ⌊q⌋ else ⌊q⌋ + 1

/-- The hundredths shown by `f"{x:.2f}"`. -/
def format2 (x : ℚ) : ℤ := roundHalfEven (100 * x)

/-! ## Data model -/

/-- One directory entry as the scanner sees it: `os.listdir` yields the
bare name; whether the entry is a regular file or a subdirectory is a
property of the filesystem that the scanner never consults. -/
structure DirEntry where
  name : String
  isDir : Bool
deriving Repr, DecidableEq

/-- One raw segment of the speech model's result: start time, end time
(both seconds) and text. -/
structure Segment where
  start : ℚ
  stop : ℚ
  text : String
deriving Repr, DecidableEq

/-- One data row of the output CSV: file display name, the time field as
the integer number of hundredths of a minute it displays, and the text. -/
structure CsvRow where
  fileName : String
  timeHundredths : ℤ
  text : String
deriving Repr, DecidableEq

/-- One line printed to stdout, tagged by `print` call site. -/
inductive Msg where
  | invalidDir (folder : String)
  | noVideos (folder : String)
  | found (n : Nat)
  | loadingModel (size : String)
  | processing (name : String)
  | errDuration (path : String)
  | skipDuration (name : String)
  | errExtract (path : String)
  | skipExtract (name : String)
  | forcingLang (lang : String)
  | errTranscribe (path : String)
  | transcribedCount (n : Nat)
  | noTranscription (name : String)
  | complete (out : String)
  | errNoFfmpeg
  | errNoFfprobe
deriving Repr, DecidableEq

/-- Outcome of the `ffprobe` duration subprocess: the raised
`CalledProcessError`, or the captured stdout text. -/
inductive ProbeOutcome where
  | fail
  | ok (stdout : String)
deriving Repr, DecidableEq

/-- Outcome of the `ffmpeg` extraction subprocess. -/
inductive ExtractOutcome where
  | err
  | ok
deriving Repr, DecidableEq

/-- Outcome of the speech model's `transcribe` call: an arbitrary raised
exception, or a well-formed result with its segment list. -/
inductive ModelOutcome where
  | err
  | ok (segs : List Segment)
deriving Repr, DecidableEq

/-- The external world of one per-file iteration. -/
structure FileEnv where
  probe : ProbeOutcome
  extract : ExtractOutcome
  model : ModelOutcome
deriving Repr, DecidableEq

/-- Observable state of one run: lines printed so far, whether the model
was loaded, whether the output CSV was opened (and its header written),
the data rows written so far, the audio file names currently present in
the scratch directory, and the `sys.exit` code if the run exited. -/
structure RunState where
  printed : List Msg := []
  modelLoaded : Bool := false
  csvCreated : Bool := false
  rows : List CsvRow := []
  scratch : List String := []
  exited : Option Nat := none
deriving Repr, DecidableEq

/-! ## The script's functions -/

/-- `get_video_duration`: runs `ffprobe`, parses its stdout as a float,
and on `CalledProcessError` or `ValueError` prints a diagnostic and
returns the sentinel `0.0`.  The returned pair is (duration, lines
printed during the call); the function is total — no outcome escapes it. -/
def get_video_duration (videoPath : String) (o : ProbeOutcome) : ℚ × List Msg :=
  match o with
  | .fail => (0, [Msg.errDuration videoPath])
  | .ok out =>
    match pyFloat? (pyStrip out) with
    | some d => (d, [])
    | none => (0, [Msg.errDuration videoPath])

/-- The scratch audio file name `extract_audio_from_video` derives for a
video path: the path's stem plus `".wav"`, placed in the scratch
directory (which we leave implicit, keeping base names). -/
def audioFileName (videoPath : String) : String :=
  pyStem (pyBaseName videoPath) ++ ".wav"

/-- `extract_audio_from_video`: runs `ffmpeg`; on success returns the
audio path, on `CalledProcessError` prints a diagnostic and returns
`None`.  Second component: lines printed during the call. -/
def extract_audio_from_video (videoPath : String) (o : ExtractOutcome) :
    Option String × List Msg :=
  match o with
  | .ok => (some (audioFileName videoPath), [])
  | .err => (none, [Msg.errExtract videoPath])

/-- `transcribe_audio`: invokes the model with word timestamps and the
optional forced language (printing the forcing notice first), then keeps
each segment whose stripped text is non-empty, with the stripped text.
On any exception it prints a diagnostic and returns the empty list. -/
def transcribe_audio (audioPath : String) (language : Option String)
    (o : ModelOutcome) : List Segment × List Msg :=
  let pre := match language with
    | some l => [Msg.forcingLang l]
    | none => []
  match o with
  | .err => ([], pre ++ [Msg.errTranscribe audioPath])
  | .ok segs =>
    (segs.filterMap (fun s =>
      let t := pyStrip s.text
      if t = "" then none else some ⟨s.start, s.stop, t⟩), pre)

/-- `seconds_to_minutes`. -/
def seconds_to_minutes (seconds : ℚ) : ℚ := seconds / 60

/-- The extension allow-set `video_extensions` (a Python set used only
for membership tests; modelled as a list). -/
def video_extensions : List String := [".mov", ".mp4", ".MOV", ".MP4"]

/-- The scanner loop of `process_video_folder`: keep, in listing order,
each entry whose name's suffix is in the allow-set, as a joined path.
Only the name is consulted, never the entry's kind. -/
def scanVideoFiles (folderPath : String) (entries : List DirEntry) : List String :=
  (entries.filter (fun e => decide (pySuffix e.name ∈ video_extensions))).map
    (fun e => joinPath folderPath e.name)

/-- The body of the per-file loop of `process_video_folder`: probe the
duration (skip on the `0` sentinel), extract audio (skip on failure,
recording the created scratch file), transcribe, append one CSV row per
segment with the start time formatted to two decimal places of minutes,
then delete the scratch audio file if it exists. -/
def processOneVideo (language : Option String) (videoPath : String)
    (env : FileEnv) (st : RunState) : RunState :=
  let videoName := pyBaseName videoPath
  let st1 := { st with printed := st.printed ++ [Msg.processing videoName] }
  let dur := get_video_duration videoPath env.probe
  let st2 := { st1 with printed := st1.printed ++ dur.2 }
  if dur.1 = 0 then
    { st2 with printed := st2.printed ++ [Msg.skipDuration videoName] }
  else
    let ext := extract_audio_from_video videoPath env.extract
    let st3 := { st2 with printed := st2.printed ++ ext.2 }
    match ext.1 with
    | none => { st3 with printed := st3.printed ++ [Msg.skipExtract videoName] }
    | some audioPath =>
      let st4 := { st3 with
        scratch := if st3.scratch.contains audioPath then st3.scratch
                   else audioPath :: st3.scratch }
      let tr := transcribe_audio audioPath language env.model
      let st5 := { st4 with printed := st4.printed ++ tr.2 }
      let st6 :=
        if tr.1.isEmpty then
          { st5 with printed := st5.printed ++ [Msg.noTranscription videoName] }
        else
          { st5 with
            rows := st5.rows ++ tr.1.map (fun s =>
              ⟨videoName, format2 (seconds_to_minutes s.start), s.text⟩)
            printed := st5.printed ++ [Msg.transcribedCount tr.1.length] }
      { st6 with scratch := st6.scratch.filter (fun f => f != audioPath) }

/-- `process_video_folder`: exit with code 1 if the folder is not a
directory; scan it; return early with a notice if no video file
qualifies; otherwise load the model once, open the CSV and write the
header, run the per-file loop, and tear down the scratch directory.
`folderIsDir` is the `os.path.isdir` answer and `entries` the
`os.listdir` result; `envOf` gives each path's external outcomes. -/
def process_video_folder (folderIsDir : Bool) (entries : List DirEntry)
    (envOf : String → FileEnv) (folderPath outputCsv : String)
    (language : Option String) (modelSize : String) : RunState :=
  if folderIsDir = false then
    { printed := [Msg.invalidDir folderPath], exited := some 1 }
  else
    let videoFiles := scanVideoFiles folderPath entries
    if videoFiles.isEmpty then
      { printed := [Msg.noVideos folderPath] }
    else
      let st0 : RunState :=
        { printed := [Msg.found videoFiles.length, Msg.loadingModel modelSize]
          modelLoaded := true
          csvCreated := true }
      let stN := videoFiles.foldl
        (fun st v => processOneVideo language v (envOf v) st) st0
      { stN with
        scratch := []
        printed := stN.printed ++ [Msg.complete outputCsv] }

/-- Presence of the two required external tools, as observed by the
preflight version-query invocations in `main` (a query fails — raising
`CalledProcessError` or `FileNotFoundError` — exactly when the tool is
absent). -/
structure ToolEnv where
  ffmpegPresent : Bool
  ffprobePresent : Bool
deriving Repr, DecidableEq

/-- The `"th"`/`"en"`/`"auto"` language argument mapped to the code
passed to the model (`auto` becomes no hint). -/
def languageCode (arg : String) : Option String :=
  if arg = "th" then some "th"
  else if arg = "en" then some "en"
  else none

/-- The script's `main` after argument parsing (named `mainEntry` here):
the two tool preflight checks, each exiting with code 1 when its tool is
absent, then the folder run. -/
def mainEntry (tools : ToolEnv) (folderIsDir : Bool) (entries : List DirEntry)
    (envOf : String → FileEnv) (folderPath outputCsv languageArg modelSize :
    String) : RunState :=
  if tools.ffmpegPresent = false then
    { printed := [Msg.errNoFfmpeg], exited := some 1 }
  else if tools.ffprobePresent = false then
    { printed := [Msg.errNoFfprobe], exited := some 1 }
  else
    process_video_folder folderIsDir entries envOf folderPath outputCsv
      (languageCode languageArg) modelSize

/-- The probe outcomes `get_video_duration`'s except-clause catches: the
subprocess raised, or its stdout does not parse as a float. -/
def probeFailed (o : ProbeOutcome) : Prop :=
  match o with
  | .fail => True
  | .ok out => pyFloat? (pyStrip out) = none

/-! ## Helper lemmas -/

/-- The head that `dropWhile` stops at does not satisfy the predicate. -/
theorem dropWhileHeadFalse {α : Type} (p : α → Bool) :
    ∀ (l : List α) (a : α) (t : List α), l.dropWhile p = a :: t → p a = false := by
  intro l
  induction l with
  | nil => intro a t h; simp [List.dropWhile] at h
  | cons b l ih =>
    intro a t h
    by_cases hb : p b = true
    · rw [List.dropWhile_cons_of_pos hb] at h
      exact ih a t h
    · rw [List.dropWhile_cons_of_neg hb] at h
      cases h
      simpa using hb

/-- `dropWhile` removes an initial block: some block put back in front
restores the list. -/
theorem dropWhileExistsPre {α : Type} (p : α → Bool) (l : List α) :
    ∃ t, t ++ l.dropWhile p = l := by
  induction l with
  | nil => exact ⟨[], rfl⟩
  | cons a l ih =>
    by_cases ha : p a = true
    · obtain ⟨t, ht⟩ := ih
      refine ⟨a :: t, ?_⟩
      rw [List.dropWhile_cons_of_pos ha]
      simpa using ht
    · exact ⟨[], by rw [List.dropWhile_cons_of_neg ha]; rfl⟩

/-- `dropWhile` keeps a list whose head fails the predicate. -/
theorem dropWhileSelfOfHead {α : Type} (p : α → Bool) (a : α) (l : List α)
    (h : p a = false) : List.dropWhile p (a :: l) = a :: l :=
  List.dropWhile_cons_of_neg (by simp [h])

/-- `dropWhile` is idempotent. -/
theorem dropWhileIdem {α : Type} (p : α → Bool) (m : List α) :
    (m.dropWhile p).dropWhile p = m.dropWhile p := by
  cases h : m.dropWhile p with
  | nil => simp
  | cons a t => exact dropWhileSelfOfHead p a t (dropWhileHeadFalse p m a t h)

/-- A both-ends-stripped list starts with a character that fails the
predicate, so a further `dropWhile` keeps it whole. -/
theorem dropWhileOfStripped (p : Char → Bool) (l : List Char) :
    (((l.dropWhile p).reverse.dropWhile p).reverse).dropWhile p
      = ((l.dropWhile p).reverse.dropWhile p).reverse := by
  cases hBr : ((l.dropWhile p).reverse.dropWhile p).reverse with
  | nil => simp
  | cons a u =>
    obtain ⟨t, ht⟩ := dropWhileExistsPre p (l.dropWhile p).reverse
    have hA : l.dropWhile p = a :: (u ++ t.reverse) := by
      have h2 := congrArg List.reverse ht
      rw [List.reverse_append, List.reverse_reverse] at h2
      rw [hBr] at h2
      simpa using h2.symm
    have ha : p a = false := dropWhileHeadFalse p l a _ hA
    exact dropWhileSelfOfHead p a u ha

/-- Stripping is idempotent. -/
theorem stripList_idem (l : List Char) : stripList (stripList l) = stripList l := by
  show ((((((l.dropWhile isPyWs).reverse.dropWhile isPyWs).reverse).dropWhile
      isPyWs).reverse).dropWhile isPyWs).reverse
    = ((l.dropWhile isPyWs).reverse.dropWhile isPyWs).reverse
  rw [dropWhileOfStripped isPyWs l, List.reverse_reverse,
    dropWhileIdem isPyWs (l.dropWhile isPyWs).reverse]

/-- `pyStrip` is idempotent. -/
theorem pyStrip_idem (s : String) : pyStrip (pyStrip s) = pyStrip s := by
  show String.mk (stripList (String.mk (stripList s.toList)).toList)
    = String.mk (stripList s.toList)
  rw [show (String.mk (stripList s.toList)).toList = stripList s.toList from rfl,
    stripList_idem]

/-- Rounding half-to-even lands within one half of the argument. -/
theorem roundHalfEven_close (q : ℚ) : |(roundHalfEven q : ℚ) - q| ≤ 1 / 2 := by
  have h0 : 0 ≤ Int.fract q := Int.fract_nonneg q
  have h1 : Int.fract q < 1 := Int.fract_lt_one q
  have hf : (⌊q⌋ : ℚ) = q - Int.fract q := by
    have := Int.self_sub_floor q
    linarith
  unfold roundHalfEven
  split_ifs with hlt hgt heven
  · rw [abs_sub_comm, hf, abs_of_nonneg (by linarith)]
    linarith
  · push_cast
    rw [hf, abs_of_nonneg (by linarith)]
    linarith
  · rw [abs_sub_comm, hf, abs_of_nonneg (by linarith)]
    linarith
  · push_cast
    rw [hf, abs_of_nonneg (by linarith)]
    linarith

/-- The two-decimal rendering is within half a hundredth of its input. -/
theorem format2_close (x : ℚ) : |(format2 x : ℚ) / 100 - x| ≤ 5 / 1000 := by
  have h := roundHalfEven_close (100 * x)
  have heq : (format2 x : ℚ) / 100 - x = ((roundHalfEven (100 * x) : ℚ) - 100 * x) / 100 := by
    unfold format2
    ring
  rw [heq, abs_div, abs_of_pos (by norm_num : (0:ℚ) < 100)]
  linarith


/-! ## Claim theorems -/

/-- Removing matches of a value leaves a list without that value. -/
theorem notMemFilterNe (a : String) (l : List String) :
    a ∉ l.filter (fun f => f != a) := by
  simp [List.mem_filter]

/-- The create-then-delete of the scratch audio file collapses to a
delete. -/
theorem insertFilterCollapse (a : String) (l : List String) :
    (if a ∈ l then l else a :: l).filter (fun f => f != a)
      = l.filter (fun f => f != a) := by
  split_ifs with h
  · rfl
  · simp [List.filter_cons]

/-- Scratch contents after a per-file iteration that reached extraction
and succeeded: the iteration's own audio file has been deleted, whatever
the transcription outcome was. -/
theorem processOneVideo_scratch_ok (language : Option String)
    (videoPath : String) (probe : ProbeOutcome) (mo : ModelOutcome)
    (st : RunState) (h : (get_video_duration videoPath probe).1 ≠ 0) :
    (processOneVideo language videoPath ⟨probe, ExtractOutcome.ok, mo⟩ st).scratch
      = st.scratch.filter (fun f => f != audioFileName videoPath) := by
  by_cases hemp : (transcribe_audio (audioFileName videoPath) language mo).1.isEmpty <;>
    simp [processOneVideo, extract_audio_from_video, h, hemp, insertFilterCollapse]

/-- Scratch contents are unchanged by an iteration that skipped on the
duration sentinel or on extraction failure. -/
theorem processOneVideo_scratch_skip (language : Option String)
    (videoPath : String) (env : FileEnv) (st : RunState)
    (h : (get_video_duration videoPath env.probe).1 = 0 ∨
      env.extract = ExtractOutcome.err) :
    (processOneVideo language videoPath env st).scratch = st.scratch := by
  obtain ⟨probe, ex, mo⟩ := env
  by_cases h0 : (get_video_duration videoPath probe).1 = 0
  · simp [processOneVideo, h0]
  · rcases h with h | h
    · exact absurd h h0
    · cases h
      simp [processOneVideo, h0, extract_audio_from_video]

/-- C1: for every per-file iteration whose audio extraction succeeded,
the scratch audio artifact is deleted by the end of that iteration, on
transcription success and failure alike; moreover no iteration ever
grows the scratch directory, so after every iteration the scratch
directory contains no audio file of an already-processed video. -/
theorem C1_scratch_audio_deleted (language : Option String)
    (videoPath : String) (env : FileEnv) (st : RunState) :
    ((processOneVideo language videoPath env st).scratch ⊆ st.scratch) ∧
    (env.extract = ExtractOutcome.ok →
      (get_video_duration videoPath env.probe).1 ≠ 0 →
      audioFileName videoPath ∉ (processOneVideo language videoPath env st).scratch) ∧
    (audioFileName videoPath ∉ st.scratch →
      audioFileName videoPath ∉ (processOneVideo language videoPath env st).scratch) := by
  obtain ⟨probe, ex, mo⟩ := env
  have hmain : (processOneVideo language videoPath ⟨probe, ex, mo⟩ st).scratch = st.scratch ∨
      (processOneVideo language videoPath ⟨probe, ex, mo⟩ st).scratch
        = st.scratch.filter (fun f => f != audioFileName videoPath) := by
    by_cases h0 : (get_video_duration videoPath probe).1 = 0
    · exact Or.inl (processOneVideo_scratch_skip language videoPath _ st (Or.inl h0))
    · cases ex
      · exact Or.inl (processOneVideo_scratch_skip language videoPath _ st (Or.inr rfl))
      · exact Or.inr (processOneVideo_scratch_ok language videoPath probe mo st h0)
  refine ⟨?_, ?_, ?_⟩
  · rcases hmain with h | h <;> rw [h]
    · exact fun x hx => hx
    · exact (List.filter_sublist _).subset
  · intro hex h0
    cases hex
    rw [processOneVideo_scratch_ok language videoPath probe mo st h0]
    exact notMemFilterNe _ _
  · intro hnot
    rcases hmain with h | h <;> rw [h]
    · exact hnot
    · exact fun hmem => hnot ((List.filter_sublist _).subset hmem)

/-- C1, instantiated: a file with a good probe, successful extraction
and a crashing transcription still ends its iteration with its scratch
audio file deleted. -/
theorem C1_scratch_audio_deleted_witness :
    audioFileName "d/a.mp4" ∉
      (processOneVideo none "d/a.mp4"
        ⟨ProbeOutcome.ok "5.0", ExtractOutcome.ok, ModelOutcome.err⟩
        ⟨[], true, true, [], [], none⟩).scratch :=
  (C1_scratch_audio_deleted none "d/a.mp4"
    ⟨ProbeOutcome.ok "5.0", ExtractOutcome.ok, ModelOutcome.err⟩
    ⟨[], true, true, [], [], none⟩).2.1 rfl
    (by simp +decide [get_video_duration, pyStrip, stripList, pyFloat?, takeSign,
      breakExp, breakDot, parseMantissa, parseExp, digitsToNat, isPyWs])

/-- C2: counterexample — the scanner's membership test is case-sensitive
set membership, not a case-insensitive extension comparison: the entry
`clip.Mp4`, whose extension equals `mp4` case-insensitively, is not
selected. -/
theorem C2_counterexample :
    pySuffix "clip.Mp4" = ".Mp4" ∧
    scanVideoFiles "d" [⟨"clip.Mp4", false⟩] = [] := by
  constructor
  · decide
  · decide

/-- C2 (amended): the folder scanner selects exactly the directory
entries whose filename suffix is literally one of `.mov`, `.mp4`, `.MOV`,
`.MP4`; mixed-case extensions such as `.Mp4` are excluded. -/
theorem C2_scanner_membership (folder : String) (entries : List DirEntry)
    (p : String) :
    p ∈ scanVideoFiles folder entries ↔
      ∃ e, e ∈ entries ∧ p = joinPath folder e.name ∧
        (pySuffix e.name = ".mov" ∨ pySuffix e.name = ".mp4" ∨
         pySuffix e.name = ".MOV" ∨ pySuffix e.name = ".MP4") := by
  unfold scanVideoFiles
  simp only [List.mem_map, List.mem_filter, decide_eq_true_eq]
  constructor
  · rintro ⟨e, ⟨he, hm⟩, rfl⟩
    refine ⟨e, he, rfl, ?_⟩
    simpa [video_extensions] using hm
  · rintro ⟨e, he, rfl, hm⟩
    exact ⟨e, ⟨he, by simpa [video_extensions] using hm⟩, rfl⟩

/-- C2 (amended), instantiated: a lower-case `.mp4` entry is selected. -/
theorem C2_scanner_membership_witness :
    joinPath "d" "a.mp4" ∈ scanVideoFiles "d" [⟨"a.mp4", false⟩] :=
  (C2_scanner_membership "d" [⟨"a.mp4", false⟩] (joinPath "d" "a.mp4")).mpr
    ⟨⟨"a.mp4", false⟩, by simp, rfl, Or.inr (Or.inl (by decide))⟩

/-- C3: when the probing subprocess fails or its output does not parse,
`get_video_duration` returns the `0.0` sentinel (by construction it is a
total function — no outcome escapes it), and the per-file loop then
contributes no row, leaves the scratch directory alone, prints the one
skip diagnostic after the prober's own error line, and moves on. -/
theorem C3_probe_failure_skips (o : ProbeOutcome) (videoPath : String)
    (language : Option String) (ex : ExtractOutcome) (mo : ModelOutcome)
    (st : RunState) (h : probeFailed o) :
    (get_video_duration videoPath o).1 = 0 ∧
    (processOneVideo language videoPath ⟨o, ex, mo⟩ st).rows = st.rows ∧
    (processOneVideo language videoPath ⟨o, ex, mo⟩ st).scratch = st.scratch ∧
    (processOneVideo language videoPath ⟨o, ex, mo⟩ st).printed
      = st.printed ++ [Msg.processing (pyBaseName videoPath)]
        ++ (get_video_duration videoPath o).2
        ++ [Msg.skipDuration (pyBaseName videoPath)] := by
  have h0 : (get_video_duration videoPath o).1 = 0 := by
    cases o with
    | fail => rfl
    | ok s =>
      have hs : pyFloat? (pyStrip s) = none := h
      simp [get_video_duration, hs]
  refine ⟨h0, ?_, ?_, ?_⟩ <;> simp [processOneVideo, h0, List.append_assoc]

/-- C3, instantiated: unparsable probe output on a file yields the
sentinel and zero rows. -/
theorem C3_probe_failure_skips_witness :
    (get_video_duration "d/a.mp4" (ProbeOutcome.ok "N/A")).1 = 0 ∧
    (processOneVideo none "d/a.mp4"
      ⟨ProbeOutcome.ok "N/A", ExtractOutcome.ok, ModelOutcome.ok []⟩
      ⟨[], true, true, [], [], none⟩).rows = [] :=
  ⟨(C3_probe_failure_skips (ProbeOutcome.ok "N/A") "d/a.mp4" none ExtractOutcome.ok
      (ModelOutcome.ok []) ⟨[], true, true, [], [], none⟩
      (by decide : pyFloat? (pyStrip "N/A") = none)).1,
   (C3_probe_failure_skips (ProbeOutcome.ok "N/A") "d/a.mp4" none ExtractOutcome.ok
      (ModelOutcome.ok []) ⟨[], true, true, [], [], none⟩
      (by decide : pyFloat? (pyStrip "N/A") = none)).2.1⟩

/-- C4: an exception inside the model call makes `transcribe_audio`
return the empty segment list instead of propagating, and a file whose
transcription call raised contributes zero rows to the CSV. -/
theorem C4_transcribe_exception_empty (audioPath : String)
    (language : Option String) (videoPath : String) (probe : ProbeOutcome)
    (ex : ExtractOutcome) (st : RunState) :
    (transcribe_audio audioPath language ModelOutcome.err).1 = [] ∧
    (processOneVideo language videoPath ⟨probe, ex, ModelOutcome.err⟩ st).rows
      = st.rows := by
  constructor
  · rfl
  · by_cases h0 : (get_video_duration videoPath probe).1 = 0
    · simp [processOneVideo, h0]
    · cases ex
      · simp [processOneVideo, h0, extract_audio_from_video]
      · simp [processOneVideo, h0, extract_audio_from_video, transcribe_audio]

/-- Every segment `transcribe_audio` returns carries trimmed, non-empty
text. -/
theorem transcribe_text_stripped (audioPath : String) (language : Option String)
    (o : ModelOutcome) :
    ∀ seg ∈ (transcribe_audio audioPath language o).1,
      pyStrip seg.text = seg.text ∧ seg.text ≠ "" := by
  intro seg hseg
  cases o with
  | err => simp [transcribe_audio] at hseg
  | ok segs =>
    simp only [transcribe_audio, List.mem_filterMap] at hseg
    obtain ⟨s, hs, hf⟩ := hseg
    by_cases ht : pyStrip s.text = ""
    · simp [ht] at hf
    · rw [if_neg ht] at hf
      injection hf with hf
      subst hf
      exact ⟨pyStrip_idem s.text, ht⟩

/-- Row provenance of one per-file iteration: either no row was added,
or exactly one row per returned segment was appended, with the segment's
text and its start time rendered to two decimal places of minutes. -/
theorem processOneVideo_rows_eq (language : Option String) (videoPath : String)
    (env : FileEnv) (st : RunState) :
    (processOneVideo language videoPath env st).rows = st.rows ∨
    (processOneVideo language videoPath env st).rows
      = st.rows ++
        ((transcribe_audio (audioFileName videoPath) language env.model).1.map
          (fun s => ⟨pyBaseName videoPath, format2 (seconds_to_minutes s.start),
            s.text⟩)) := by
  obtain ⟨probe, ex, mo⟩ := env
  by_cases h0 : (get_video_duration videoPath probe).1 = 0
  · left
    simp [processOneVideo, h0]
  · cases ex
    · left
      simp [processOneVideo, h0, extract_audio_from_video]
    · by_cases hemp : (transcribe_audio (audioFileName videoPath) language mo).1.isEmpty
      · left
        simp [processOneVideo, h0, extract_audio_from_video, hemp]
      · right
        simp [processOneVideo, h0, extract_audio_from_video, hemp]

/-- C5: the transcription adapter returns only segments with trimmed,
non-empty text — whitespace-only segments are discarded — and the
per-file loop preserves the invariant that every CSV row's text is
non-empty after trimming, so no whitespace-only segment ever yields a
row. -/
theorem C5_blank_segments_never_emitted (audioPath : String)
    (language : Option String) (o : ModelOutcome) (videoPath : String)
    (env : FileEnv) (st : RunState) :
    (∀ seg ∈ (transcribe_audio audioPath language o).1,
      pyStrip seg.text = seg.text ∧ seg.text ≠ "") ∧
    ((∀ r ∈ st.rows, pyStrip r.text ≠ "") →
      ∀ r ∈ (processOneVideo language videoPath env st).rows,
        pyStrip r.text ≠ "") := by
  refine ⟨transcribe_text_stripped audioPath language o, ?_⟩
  intro hrows r hr
  rcases processOneVideo_rows_eq language videoPath env st with h | h
  · rw [h] at hr
    exact hrows r hr
  · rw [h] at hr
    rcases List.mem_append.mp hr with h1 | h2
    · exact hrows r h1
    · obtain ⟨s, hs, rfl⟩ := List.mem_map.mp h2
      obtain ⟨hstr, hne⟩ :=
        transcribe_text_stripped (audioFileName videoPath) language env.model s hs
      show pyStrip s.text ≠ ""
      rw [hstr]
      exact hne

/-- C5, instantiated: a run over a model result holding one real segment
and one whitespace-only segment emits only the trimmed non-empty text
(the row produced is the `"hello"` one, and its text survives a trim). -/
theorem C5_blank_segments_never_emitted_witness :
    pyStrip "hello" ≠ "" :=
  (C5_blank_segments_never_emitted "a.wav" none (ModelOutcome.ok []) "d/a.mp4"
      ⟨ProbeOutcome.ok "5", ExtractOutcome.ok,
        ModelOutcome.ok [⟨0, 2, " hello "⟩, ⟨2, 3, "   "⟩]⟩
      ⟨[], true, true, [], [], none⟩).2 (by simp)
    ⟨"a.mp4", format2 (seconds_to_minutes 0), "hello"⟩
    (by simp +decide [processOneVideo, get_video_duration, pyStrip, stripList,
      pyFloat?, takeSign, breakExp, breakDot, parseMantissa, parseExp,
      digitsToNat, isPyWs, extract_audio_from_video, transcribe_audio,
      audioFileName, pyBaseName, pyStem, pySuffix, rfindDot])

/-- C6: if either required external tool is absent at startup, the
program exits with code 1 from the preflight checks: no model is loaded,
no output file is opened, no row is written, and the result does not
depend on the folder's existence or contents — the exit happens before
any scanning. -/
theorem C6_missing_tool_exits (tools : ToolEnv) (folderIsDir folderIsDir2 : Bool)
    (entries entries2 : List DirEntry) (envOf envOf2 : String → FileEnv)
    (folderPath outputCsv languageArg modelSize : String)
    (h : tools.ffmpegPresent = false ∨ tools.ffprobePresent = false) :
    (mainEntry tools folderIsDir entries envOf folderPath outputCsv languageArg
      modelSize).exited = some 1 ∧
    (mainEntry tools folderIsDir entries envOf folderPath outputCsv languageArg
      modelSize).csvCreated = false ∧
    (mainEntry tools folderIsDir entries envOf folderPath outputCsv languageArg
      modelSize).modelLoaded = false ∧
    (mainEntry tools folderIsDir entries envOf folderPath outputCsv languageArg
      modelSize).rows = [] ∧
    mainEntry tools folderIsDir entries envOf folderPath outputCsv languageArg
        modelSize
      = mainEntry tools folderIsDir2 entries2 envOf2 folderPath outputCsv
        languageArg modelSize := by
  rcases h with h | h
  · simp [mainEntry, h]
  · cases hm : tools.ffmpegPresent <;> simp [mainEntry, h, hm]

/-- C6, instantiated: `ffmpeg` present but `ffprobe` absent exits with
code 1. -/
theorem C6_missing_tool_exits_witness :
    (mainEntry ⟨true, false⟩ true [⟨"a.mp4", false⟩]
      (fun _ => ⟨ProbeOutcome.fail, ExtractOutcome.err, ModelOutcome.err⟩)
      "d" "out.csv" "auto" "base").exited = some 1 :=
  (C6_missing_tool_exits ⟨true, false⟩ true true [⟨"a.mp4", false⟩] []
    (fun _ => ⟨ProbeOutcome.fail, ExtractOutcome.err, ModelOutcome.err⟩)
    (fun _ => ⟨ProbeOutcome.fail, ExtractOutcome.err, ModelOutcome.err⟩)
    "d" "out.csv" "auto" "base" (Or.inr rfl)).1

/-- C7: a valid directory whose scan yields no qualifying video file
makes the run return early: the whole run state is exactly the
"no video files found" notice — no CSV opened, no model loaded, no rows,
normal (non-exiting) return. -/
theorem C7_empty_scan_early_return (entries : List DirEntry)
    (envOf : String → FileEnv) (folderPath outputCsv : String)
    (language : Option String) (modelSize : String)
    (h : scanVideoFiles folderPath entries = []) :
    process_video_folder true entries envOf folderPath outputCsv language
        modelSize
      = { printed := [Msg.noVideos folderPath] } := by
  simp [process_video_folder, h]

/-- C7, instantiated: a folder holding only `notes.txt`. -/
theorem C7_empty_scan_early_return_witness :
    process_video_folder true [⟨"notes.txt", false⟩]
        (fun _ => ⟨ProbeOutcome.fail, ExtractOutcome.err, ModelOutcome.err⟩)
        "d" "out.csv" none "base"
      = { printed := [Msg.noVideos "d"] } :=
  C7_empty_scan_early_return [⟨"notes.txt", false⟩]
    (fun _ => ⟨ProbeOutcome.fail, ExtractOutcome.err, ModelOutcome.err⟩)
    "d" "out.csv" none "base" (by decide)

/-- C8: the time field of every emitted CSV row is the segment's start
time divided by 60 and rendered to two decimal places, and parsing the
rendered value back yields a number within 0.005 of start/60 (the
first conjunct shows the bound for the formatter on any value, the
second ties every row added by the per-file loop to its segment). -/
theorem C8_time_round_trip (q : ℚ) (language : Option String)
    (videoPath : String) (env : FileEnv) (st : RunState) (r : CsvRow) :
    |(format2 (seconds_to_minutes q) : ℚ) / 100 - q / 60| ≤ 5 / 1000 ∧
    (r ∈ (processOneVideo language videoPath env st).rows →
      r ∈ st.rows ∨
        ∃ seg ∈ (transcribe_audio (audioFileName videoPath) language
            env.model).1,
          r.timeHundredths = format2 (seconds_to_minutes seg.start) ∧
          |(r.timeHundredths : ℚ) / 100 - seconds_to_minutes seg.start|
            ≤ 5 / 1000) := by
  constructor
  · exact format2_close (seconds_to_minutes q)
  · intro hr
    rcases processOneVideo_rows_eq language videoPath env st with h | h
    · rw [h] at hr
      exact Or.inl hr
    · rw [h] at hr
      rcases List.mem_append.mp hr with h1 | h2
      · exact Or.inl h1
      · obtain ⟨s, hs, rfl⟩ := List.mem_map.mp h2
        exact Or.inr ⟨s, hs, rfl, format2_close (seconds_to_minutes s.start)⟩

/-- C8, instantiated: 90 seconds renders within 0.005 of 1.5 minutes,
and the row a concrete run emits traces back to its segment with the
bound. -/
theorem C8_time_round_trip_witness :
    |(format2 (seconds_to_minutes 90) : ℚ) / 100 - 90 / 60| ≤ 5 / 1000 ∧
    ((⟨"a.mp4", format2 (seconds_to_minutes 0), "hello"⟩ : CsvRow) ∈
        (⟨[], true, true, [], [], none⟩ : RunState).rows ∨
      ∃ seg ∈ (transcribe_audio (audioFileName "d/a.mp4") none
          (ModelOutcome.ok [⟨0, 2, " hello "⟩])).1,
        (⟨"a.mp4", format2 (seconds_to_minutes 0), "hello"⟩ : CsvRow).timeHundredths
          = format2 (seconds_to_minutes seg.start) ∧
        |((⟨"a.mp4", format2 (seconds_to_minutes 0), "hello"⟩ :
              CsvRow).timeHundredths : ℚ) / 100 - seconds_to_minutes seg.start|
          ≤ 5 / 1000) :=
  ⟨(C8_time_round_trip 90 none "d/a.mp4"
      ⟨ProbeOutcome.ok "5", ExtractOutcome.ok, ModelOutcome.ok [⟨0, 2, " hello "⟩]⟩
      ⟨[], true, true, [], [], none⟩
      ⟨"a.mp4", format2 (seconds_to_minutes 0), "hello"⟩).1,
   (C8_time_round_trip 90 none "d/a.mp4"
      ⟨ProbeOutcome.ok "5", ExtractOutcome.ok, ModelOutcome.ok [⟨0, 2, " hello "⟩]⟩
      ⟨[], true, true, [], [], none⟩
      ⟨"a.mp4", format2 (seconds_to_minutes 0), "hello"⟩).2
     (by simp +decide [processOneVideo, get_video_duration, pyStrip, stripList,
       pyFloat?, takeSign, breakExp, breakDot, parseMantissa, parseExp,
       digitsToNat, isPyWs, extract_audio_from_video, transcribe_audio,
       audioFileName, pyBaseName, pyStem, pySuffix, rfindDot])⟩

/-- C9: the probe's stdout `"0.0"` parses successfully to `0.0`, which
is also the failure sentinel, so a genuinely zero-length video is
skipped exactly like a failed probe: same rows, same scratch contents
as the failed-probe run of the same file, and the skip diagnostic is
printed. -/
theorem C9_zero_duration_indistinguishable (videoPath : String)
    (language : Option String) (ex : ExtractOutcome) (mo : ModelOutcome)
    (st : RunState) :
    (get_video_duration videoPath (ProbeOutcome.ok "0.0")).1 = 0 ∧
    (processOneVideo language videoPath ⟨ProbeOutcome.ok "0.0", ex, mo⟩ st).rows
      = st.rows ∧
    (processOneVideo language videoPath ⟨ProbeOutcome.ok "0.0", ex, mo⟩
      st).scratch = st.scratch ∧
    (processOneVideo language videoPath ⟨ProbeOutcome.ok "0.0", ex, mo⟩ st).rows
      = (processOneVideo language videoPath ⟨ProbeOutcome.fail, ex, mo⟩ st).rows ∧
    (processOneVideo language videoPath ⟨ProbeOutcome.ok "0.0", ex, mo⟩
        st).scratch
      = (processOneVideo language videoPath ⟨ProbeOutcome.fail, ex, mo⟩
        st).scratch ∧
    (processOneVideo language videoPath ⟨ProbeOutcome.ok "0.0", ex, mo⟩
        st).printed
      = st.printed ++ [Msg.processing (pyBaseName videoPath),
          Msg.skipDuration (pyBaseName videoPath)] := by
  have h1 : (get_video_duration videoPath (ProbeOutcome.ok "0.0")).1 = 0 := by
    simp +decide [get_video_duration, pyStrip, stripList, pyFloat?, takeSign,
      breakExp, breakDot, parseMantissa, parseExp, digitsToNat, isPyWs]
  have h2 : (get_video_duration videoPath (ProbeOutcome.ok "0.0")).2 = [] := by
    simp +decide [get_video_duration, pyStrip, stripList, pyFloat?, takeSign,
      breakExp, breakDot, parseMantissa, parseExp, digitsToNat, isPyWs]
  have hf : (get_video_duration videoPath ProbeOutcome.fail).1 = 0 := rfl
  refine ⟨h1, ?_, ?_, ?_, ?_, ?_⟩ <;> simp [processOneVideo, h1, h2, hf]

/-- C10: the scanner consults only the entry's name — rewriting every
entry's kind changes nothing — and a subdirectory whose name carries a
matching extension is selected as a candidate. -/
theorem C10_scanner_ignores_kind (folder : String) (entries : List DirEntry)
    (b : Bool) (name : String) :
    scanVideoFiles folder (entries.map (fun e => ⟨e.name, b⟩))
      = scanVideoFiles folder entries ∧
    (pySuffix name ∈ video_extensions →
      joinPath folder name ∈ scanVideoFiles folder [⟨name, true⟩]) := by
  constructor
  · unfold scanVideoFiles
    induction entries with
    | nil => rfl
    | cons e es ih =>
      by_cases h : pySuffix e.name ∈ video_extensions <;>
        simp only [List.map_cons, List.filter_cons, h, decide_True, decide_False,
          if_true, if_false] <;>
        simp [ih]
  · intro h
    simp [scanVideoFiles, h]

/-- C10, instantiated: flipping a file entry to a directory entry leaves
the scan unchanged, and a directory named `x.mp4` is selected. -/
theorem C10_scanner_ignores_kind_witness :
    scanVideoFiles "d" (([⟨"a.mp4", false⟩] : List DirEntry).map
        (fun e => (⟨e.name, true⟩ : DirEntry)))
        = scanVideoFiles "d" [⟨"a.mp4", false⟩] ∧
    joinPath "d" "x.mp4" ∈ scanVideoFiles "d" [⟨"x.mp4", true⟩] :=
  ⟨(C10_scanner_ignores_kind "d" [⟨"a.mp4", false⟩] true "x.mp4").1,
   (C10_scanner_ignores_kind "d" [⟨"a.mp4", false⟩] true "x.mp4").2 (by decide)⟩
